import Mathlib

/-!
Shallow embedding of the Exituity document-parsing backend
(controllers/documentController.js, utils/progressTracker.js,
utils/txtParser.js, utils/docxParser.js, utils/ocrParser.js,
utils/pdfParser.js, utils/excelParser.js, models/Document.js),
together with theorems settling the specification claims about it.

Strings are modelled as Lean `String`s (lists of characters); JavaScript
regular-expression splitting is modelled character by character, matching
the semantics of the concrete patterns used in the source
(`/\s{2,}/`, `/\t|\s{2,}/`, `/\s+/`).
-/

namespace DocParse

/-- JavaScript `\s` on the ASCII range: space, tab, newline, carriage
return, vertical tab, form feed. -/
def isWS (c : Char) : Bool :=
  c = ' ' || c = '\t' || c = '\n' || c = '\r' || c = '\x0b' || c = '\x0c'

/-- JavaScript `String.prototype.trim`: drop whitespace from both ends. -/
def trimChars (s : List Char) : List Char :=
  ((s.dropWhile isWS).reverse.dropWhile isWS).reverse

theorem length_dropWhile_le' (p : Char → Bool) (l : List Char) :
    (l.dropWhile p).length ≤ l.length := by
  induction l with
  | nil => simp [List.dropWhile]
  | cons c cs ih =>
    simp only [List.dropWhile]
    split
    · exact ih.trans (Nat.le_succ _)
    · exact Nat.le_refl _

/-- A position at which `/\s{2,}/` can match: the current character is
whitespace and the next one exists and is whitespace. -/
def twoWS (c : Char) (cs : List Char) : Bool :=
  isWS c && (match cs with | c2 :: _ => isWS c2 | [] => false)

/-- Fuel-driven worker for `splitWs2`.  Each step consumes at least one
character, so fuel equal to the input length always suffices. -/
def splitWs2Fuel : Nat → List Char → List Char → List (List Char)
  | 0, _, acc => [acc.reverse]
  | _ + 1, [], acc => [acc.reverse]
  | fuel + 1, c :: cs, acc =>
    if twoWS c cs then
      acc.reverse :: splitWs2Fuel fuel (cs.dropWhile isWS) []
    else
      splitWs2Fuel fuel cs (c :: acc)

/-- JavaScript `line.split(/\s{2,}/)`: segments separated by maximal runs
of two or more whitespace characters.  `acc` is the current segment,
reversed. -/
def splitWs2 (l acc : List Char) : List (List Char) :=
  splitWs2Fuel l.length l acc

/-- Fuel-driven worker for `splitTabWs`. -/
def splitTabWsFuel : Nat → List Char → List Char → List (List Char)
  | 0, _, acc => [acc.reverse]
  | _ + 1, [], acc => [acc.reverse]
  | fuel + 1, c :: cs, acc =>
    if c = '\t' then
      acc.reverse :: splitTabWsFuel fuel cs []
    else if twoWS c cs then
      acc.reverse :: splitTabWsFuel fuel (cs.dropWhile isWS) []
    else
      splitTabWsFuel fuel cs (c :: acc)

/-- JavaScript `line.split(/\t|\s{2,}/)`: a single tab is a separator on
its own (the alternation tries `\t` first), and a maximal run of two or
more whitespace characters not starting with a tab is a separator. -/
def splitTabWs (l acc : List Char) : List (List Char) :=
  splitTabWsFuel l.length l acc

/-- Fuel-driven worker for `splitWsPlus`. -/
def splitWsPlusFuel : Nat → List Char → List Char → List (List Char)
  | 0, _, acc => [acc.reverse]
  | _ + 1, [], acc => [acc.reverse]
  | fuel + 1, c :: cs, acc =>
    if isWS c then
      acc.reverse :: splitWsPlusFuel fuel (cs.dropWhile isWS) []
    else
      splitWsPlusFuel fuel cs (c :: acc)

/-- JavaScript `text.split(/\s+/)`: segments separated by maximal runs of
one or more whitespace characters. -/
def splitWsPlus (l acc : List Char) : List (List Char) :=
  splitWsPlusFuel l.length l acc

/-- `text.split(/\s+/).filter(word => word.length > 0).length`, the word
count shared by the txt, docx and ocr parsers. -/
def wordCount (text : String) : Nat :=
  ((splitWsPlus text.data []).filter (fun w => w.length > 0)).length

/-- `Math.ceil(a / b)` on non-negative integers. -/
def jsCeilDiv (a b : Nat) : Nat := (a + b - 1) / b

/-- `Math.max(1, Math.ceil(wordCount / 500))`, the estimated page count
used by the txt, docx and ocr parsers. -/
def estimatedPages (text : String) : Nat :=
  max 1 (jsCeilDiv (wordCount text) 500)

/-- `Array.from({ length: n }, (_, i) => i + 1)`: the dense page sequence
`[1, 2, ..., n]`. -/
def processedPagesList (n : Nat) : List Nat :=
  (List.range n).map (· + 1)

/-- The `structure` field of an extracted table: row and column counts. -/
structure TableStructure where
  rows : Nat
  columns : Nat
  deriving Repr, DecidableEq

/-- One extracted table, as pushed by the parsers. -/
structure Table where
  pageNumber : Nat
  tableIndex : Nat
  data : List (List String)
  «structure» : TableStructure
  deriving Repr, DecidableEq

/-- docxParser.js line 36: a trimmed line is a table-row candidate when it
contains a literal tab or splitting on `/\s{2,}/` yields more than two
segments. -/
def isRowCandidate (line : List Char) : Bool :=
  line.contains '\t' || (splitWs2 line []).length > 2

/-- docxParser.js line 37: `line.split(/\t|\s{2,}/).filter(cell =>
cell.trim() !== '')`. -/
def rowCells (line : List Char) : List String :=
  ((splitTabWs line []).filter (fun cell => trimChars cell ≠ [])).map
    (fun cell => String.mk cell)

/-- A finished table as assembled in docxParser.js lines 44-52 and 60-68:
page number fixed at 1, `structure.rows` the number of accumulated rows,
`structure.columns` the cell count of the first row (0 when absent). -/
def mkHeuristicTable (tableIndex : Nat) (data : List (List String)) : Table :=
  { pageNumber := 1
    tableIndex := tableIndex
    data := data
    «structure» := { rows := data.length, columns := (data.headD []).length } }

/-- One iteration of the table-detection loop in docxParser.js lines
32-56, acting on the state (accumulated rows, next table index, emitted
tables). -/
def tableStep (st : List (List String) × Nat × List Table) (rawLine : String) :
    List (List String) × Nat × List Table :=
  let line := trimChars rawLine.data
  if isRowCandidate line then
    let cells := rowCells line
    if cells.length > 1 then
      (st.1 ++ [cells], st.2.1, st.2.2)
    else
      st
  else if st.1.length > 0 then
    if st.1.length > 1 then
      ([], st.2.1 + 1, st.2.2 ++ [mkHeuristicTable st.2.1 st.1])
    else
      ([], st.2.1, st.2.2)
  else
    st

/-- The table heuristic of docxParser.js lines 28-69: run the loop over
all lines, then flush a remaining accumulator of more than one row. -/
def detectTables (lines : List String) : List Table :=
  let st := lines.foldl tableStep ([], 0, [])
  if st.1.length > 1 then
    st.2.2 ++ [mkHeuristicTable st.2.1 st.1]
  else
    st.2.2

/-- JavaScript `text.split(sep)` for a single-character separator. -/
def splitChar (sep : Char) : List Char → List Char → List (List Char)
  | [], acc => [acc.reverse]
  | c :: cs, acc =>
    if c = sep then
      acc.reverse :: splitChar sep cs []
    else
      splitChar sep cs (c :: acc)

/-- `Math.round` on an exact rational: round half toward positive
infinity. -/
def jsRound (q : ℚ) : ℤ := ⌊q + 1 / 2⌋

/-- The `metadata` object every parser returns. -/
structure ExtractionMetadata where
  pageCount : Nat
  extractionConfidence : Int
  processedPages : List Nat
  deriving Repr, DecidableEq

/-- The uniform result shape `{ text, metadata, tables }` returned by all
five parsers. -/
structure ExtractionResult where
  text : String
  metadata : ExtractionMetadata
  tables : List Table
  deriving Repr, DecidableEq

/-- txtParser.js `extractTXTText`, as a function of the text read from
the file. -/
def extractTXTText (text : String) : ExtractionResult :=
  { text := text
    metadata :=
      { pageCount := estimatedPages text
        extractionConfidence := 100
        processedPages := processedPagesList (estimatedPages text) }
    tables := [] }

/-- docxParser.js `extractDOCXText`, as a function of the converter's
raw text (`result.value`) and warning messages (`result.messages`). -/
def extractDOCXText (text : String) (messages : List String) : ExtractionResult :=
  { text := text
    metadata :=
      { pageCount := estimatedPages text
        extractionConfidence := if messages.length = 0 then 95 else 85
        processedPages := processedPagesList (estimatedPages text) }
    tables := detectTables ((splitChar '\n' text.data []).map String.mk) }

/-- ocrParser.js `extractOCRText`, as a function of the OCR engine's text
and confidence score. -/
def extractOCRText (text : String) (confidence : ℚ) : ExtractionResult :=
  { text := String.mk (trimChars text.data)
    metadata :=
      { pageCount := estimatedPages text
        extractionConfidence := jsRound confidence
        processedPages := processedPagesList (estimatedPages text) }
    tables := [] }

/-- excelParser.js line 58: keep the rows that have at least one non-empty
cell. -/
def cleanSheet (rows : List (List String)) : List (List String) :=
  rows.filter (fun row => row.any (fun cell => cell ≠ ""))

/-- The per-sheet loop of excelParser.js lines 49-71, carrying the sheet
index: one table per sheet whose cleaned rows are non-empty, with
`pageNumber = index + 1` and `tableIndex = index`. -/
def excelTables : Nat → List (String × List (List String)) → List Table
  | _, [] => []
  | index, (_, rows) :: rest =>
    let clean := cleanSheet rows
    if clean.length > 0 then
      { pageNumber := index + 1
        tableIndex := index
        data := clean
        «structure» := { rows := clean.length, columns := (clean.headD []).length } }
        :: excelTables (index + 1) rest
    else
      excelTables (index + 1) rest

/-- The text representation a sheet contributes to `combinedText`. -/
def sheetText (name : String) (rows : List (List String)) : String :=
  "Sheet: " ++ name ++ "\n" ++
    String.intercalate "\n" (rows.map (fun row => String.intercalate "\t" row)) ++ "\n\n"

/-- excelParser.js `extractExcelData`, as a function of the workbook:
sheet names with their cell grids as produced by `sheet_to_json` with
`header: 1` and empty-string fill. -/
def extractExcelData (sheets : List (String × List (List String))) : ExtractionResult :=
  { text := String.mk (trimChars (String.join (sheets.map (fun s => sheetText s.1 s.2))).data)
    metadata :=
      { pageCount := sheets.length
        extractionConfidence := 98
        processedPages := processedPagesList sheets.length }
    tables := excelTables 0 sheets }

/-- A row of a table reported by the PDF engine: `row.cells` may be
absent. -/
structure PDFRow where
  cells : Option (List (Option String))
  deriving Repr, DecidableEq

/-- A table reported by the PDF engine's per-page detector: `table.rows`
may be absent. -/
structure PDFTable where
  rows : Option (List PDFRow)
  deriving Repr, DecidableEq

/-- pdfParser.js lines 25-27: `row.cells ? row.cells.map(cell =>
cell.text || '') : []`. -/
def pdfRowData (row : PDFRow) : List String :=
  (row.cells.getD []).map (fun cell => cell.getD "")

/-- The inner `pageTables.forEach((table, tableIndex) => ...)` loop of
pdfParser.js lines 23-39: the index advances for every engine table, and
a table is pushed only when it has a non-empty `rows`. -/
def pdfTablesOnPage (pageNum : Nat) : Nat → List PDFTable → List Table
  | _, [] => []
  | tableIndex, table :: rest =>
    match table.rows with
    | some rows =>
      if rows.length > 0 then
        let tableData := rows.map pdfRowData
        { pageNumber := pageNum
          tableIndex := tableIndex
          data := tableData
          «structure» := { rows := tableData.length, columns := (tableData.headD []).length } }
          :: pdfTablesOnPage pageNum (tableIndex + 1) rest
      else
        pdfTablesOnPage pageNum (tableIndex + 1) rest
    | none => pdfTablesOnPage pageNum (tableIndex + 1) rest

/-- pdfParser.js `extractPDFText`, as a function of the engine's page
count, full text, and per-page detected tables. -/
def extractPDFText (numPages : Nat) (fullText : String)
    (pageTables : Nat → List PDFTable) : ExtractionResult :=
  { text := fullText
    metadata :=
      { pageCount := numPages
        extractionConfidence := 95
        processedPages := processedPagesList numPages }
    tables := ((List.range numPages).map
      (fun i => pdfTablesOnPage (i + 1) 0 (pageTables (i + 1)))).flatten }

/-- The mutable fields of a `ProgressTracker`
(progressTracker.js lines 4-11), minus the wall-clock start time. -/
structure TrackerState where
  progress : Nat
  status : String
  currentStep : String
  deriving Repr, DecidableEq

/-- The constructor of `ProgressTracker`: progress 0, status `pending`,
empty step. -/
def initTracker : TrackerState :=
  { progress := 0, status := "pending", currentStep := "" }

/-- An event emitted by a tracker, carrying the payload fields that do
not involve wall-clock time. -/
inductive TrackerEvent where
  | progress (value : Nat) (step : String)
  | status (status : String) (step : String)
  | error (message : String)
  deriving Repr, DecidableEq

/-- `Math.min(100, Math.max(0, progress))` from
progressTracker.js line 14. -/
def jsClamp (v : Int) : Nat := (min 100 (max 0 v)).toNat

/-- `updateProgress(progress, step)`: clamp, store, emit a progress
event. -/
def updateProgress (t : TrackerState) (v : Int) (step : String) :
    TrackerState × TrackerEvent :=
  ({ t with progress := jsClamp v, currentStep := step },
    .progress (jsClamp v) step)

/-- `setStatus(status, step)`: store both fields, emit a status event. -/
def setStatus (t : TrackerState) (status step : String) :
    TrackerState × TrackerEvent :=
  ({ t with status := status, currentStep := step }, .status status step)

/-- `complete()` = `setStatus('completed', ...)` then
`updateProgress(100, 'Complete')`. -/
def completeTracker (t : TrackerState) : TrackerState × List TrackerEvent :=
  let (t1, e1) := setStatus t "completed" "Processing complete"
  let (t2, e2) := updateProgress t1 100 "Complete"
  (t2, [e1, e2])

/-- `fail(error)` = `setStatus('failed', 'Error: ' + message)` then an
error event carrying the message. -/
def failTracker (t : TrackerState) (message : String) :
    TrackerState × List TrackerEvent :=
  let (t1, e1) := setStatus t "failed" ("Error: " ++ message)
  (t1, [e1, .error message])

/-- The process-wide `activeProgress` map of progressTracker.js. -/
def Registry : Type := String → Option TrackerState

/-- A registry with no active trackers. -/
def emptyRegistry : Registry := fun _ => none

/-- `createProgressTracker(documentId)`: insert a freshly constructed
tracker and return it. -/
def createProgressTracker (reg : Registry) (id : String) :
    Registry × TrackerState :=
  (fun k => if k = id then some initTracker else reg k, initTracker)

/-- `getProgressTracker(documentId)`. -/
def getProgressTracker (reg : Registry) (id : String) : Option TrackerState :=
  reg id

/-- The tracker-related steps of `uploadDocument`
(documentController.js lines 71-72): create the tracker, then set its
status to `processing` before handing off to `processDocument`.  Since
the registry holds the tracker by reference, the registered entry
reflects the status update. -/
def uploadRegister (reg : Registry) (id : String) :
    Registry × TrackerState × TrackerEvent :=
  let (reg1, tracker) := createProgressTracker reg id
  let (tracker1, e) := setStatus tracker "processing" "Starting document processing"
  (fun k => if k = id then some tracker1 else reg1 k, tracker1, e)

/-- The tracker state `processDocument` receives from `uploadDocument`. -/
def uploadedTracker : TrackerState :=
  (setStatus initTracker "processing" "Starting document processing").1

/-- documentController.js line 30: the allowed upload extensions. -/
def allowedTypes : List String :=
  ["pdf", "docx", "xlsx", "xls", "txt", "jpg", "jpeg", "png"]

/-- The file-type validation of `uploadDocument`
(documentController.js lines 30-37): an upload is accepted only when its
extension is in `allowedTypes`. -/
def uploadAccepts (fileExt : String) : Bool :=
  allowedTypes.contains fileExt

/-- A persistence write issued by `processDocument` against the Document
Record. -/
inductive DbWrite where
  | setProcessing
  | setCompleted (res : ExtractionResult)
  | setFailed (message : String)
  deriving Repr, DecidableEq

/-- An observable action of one `processDocument` run, in program
order. -/
inductive Action where
  | db (w : DbWrite)
  | ev (e : TrackerEvent)
  | invoke (extractor : String)
  deriving Repr, DecidableEq

instance {ε α : Type} [DecidableEq ε] [DecidableEq α] :
    DecidableEq (Except ε α) := fun x y =>
  match x, y with
  | .ok a, .ok b =>
    if h : a = b then isTrue (by rw [h]) else isFalse (by simp [h])
  | .error a, .error b =>
    if h : a = b then isTrue (by rw [h]) else isFalse (by simp [h])
  | .ok _, .error _ => isFalse (by simp)
  | .error _, .ok _ => isFalse (by simp)

/-- What each awaited extractor call would produce for the file at hand:
a result, or a thrown error's message. -/
structure Oracle where
  pdf : Except String ExtractionResult
  docx : Except String ExtractionResult
  excel : Except String ExtractionResult
  txt : Except String ExtractionResult
  ocr : Except String ExtractionResult
  deriving Repr, DecidableEq

/-- The `switch (fileType)` of documentController.js lines 116-138,
reduced to which extractor is selected (`none` = the `default` branch
that throws `Unsupported file type`). -/
def dispatchTarget (fileType : String) : Option String :=
  if fileType = "pdf" then some "pdf"
  else if fileType = "docx" then some "docx"
  else if fileType = "xlsx" ∨ fileType = "xls" then some "excel"
  else if fileType = "txt" then some "txt"
  else if fileType = "jpg" ∨ fileType = "jpeg" ∨ fileType = "png" then some "ocr"
  else none

/-- The image cases of the switch, which add the 50% OCR checkpoint. -/
def isImageType (fileType : String) : Bool :=
  fileType = "jpg" || fileType = "jpeg" || fileType = "png"

/-- The oracle's answer for a selected extractor. -/
def oracleResult (o : Oracle) (target : String) : Except String ExtractionResult :=
  if target = "pdf" then o.pdf
  else if target = "docx" then o.docx
  else if target = "excel" then o.excel
  else if target = "txt" then o.txt
  else o.ocr

/-- documentController.js `processDocument` (lines 100-171): the final
tracker state together with the ordered trace of persistence writes,
tracker events and extractor invocations. -/
def processDocument (t0 : TrackerState) (fileType : String) (o : Oracle) :
    TrackerState × List Action :=
  let (t1, e1) := updateProgress t0 10 "Reading file"
  let (t2, e2) := updateProgress t1 30 ("Processing " ++ fileType.toUpper ++ " file")
  let pre : List Action := [.db .setProcessing, .ev e1, .ev e2]
  match dispatchTarget fileType with
  | none =>
    let (t3, fe) := failTracker t2 "Unsupported file type"
    (t3, pre ++ fe.map .ev ++ [.db (.setFailed "Unsupported file type")])
  | some target =>
    let (t2', mid) :=
      if isImageType fileType then
        let (ti, ei) := updateProgress t2 50 "Performing OCR on image"
        (ti, [Action.ev ei])
      else
        (t2, [])
    match oracleResult o target with
    | .error msg =>
      let (t3, fe) := failTracker t2' msg
      (t3, pre ++ mid ++ [.invoke target] ++ fe.map .ev ++ [.db (.setFailed msg)])
    | .ok res =>
      let (t3, e3) := updateProgress t2' 80 "Saving extracted data"
      let (t4, ce) := completeTracker t3
      (t4, pre ++ mid ++ [.invoke target, .ev e3, .db (.setCompleted res)] ++ ce.map .ev)

/-- The persistence writes of a trace, in order. -/
def dbWrites (acts : List Action) : List DbWrite :=
  acts.filterMap fun a => match a with | .db w => some w | _ => none

/-- The extractor invocations of a trace, in order. -/
def invokes (acts : List Action) : List String :=
  acts.filterMap fun a => match a with | .invoke n => some n | _ => none

/-- The tracker events of a trace, in order. -/
def events (acts : List Action) : List TrackerEvent :=
  acts.filterMap fun a => match a with | .ev e => some e | _ => none

/-- The clamped values of the progress events of a trace, in order. -/
def progressValues (acts : List Action) : List Nat :=
  acts.filterMap fun a =>
    match a with | .ev (.progress v _) => some v | _ => none

/-- Whether a write puts the record into a terminal status. -/
def isTerminalWrite : DbWrite → Bool
  | .setCompleted _ => true
  | .setFailed _ => true
  | .setProcessing => false

/-- The Document Record fields the orchestrator reads or writes
(models/Document.js).  `extractionDateSet` records whether
`metadata.extractionDate` holds a value (the schema defaults it to the
creation time). -/
structure DocumentRecord where
  processingStatus : String
  extractedText : String
  extractedTables : List Table
  pageCount : Nat
  extractionConfidence : Int
  processedPages : List Nat
  extractionDateSet : Bool
  errorMessage : Option String
  deriving Repr, DecidableEq

/-- The record as created by `uploadDocument`
(documentController.js lines 59-66) with the schema defaults of
models/Document.js. -/
def initialRecord : DocumentRecord :=
  { processingStatus := "pending"
    extractedText := ""
    extractedTables := []
    pageCount := 0
    extractionConfidence := 0
    processedPages := []
    extractionDateSet := true
    errorMessage := none }

/-- Apply one `findByIdAndUpdate` call to the record. -/
def applyWrite (r : DocumentRecord) : DbWrite → DocumentRecord
  | .setProcessing => { r with processingStatus := "processing" }
  | .setCompleted res =>
    { r with
        processingStatus := "completed"
        extractedText := res.text
        extractedTables := res.tables
        pageCount := res.metadata.pageCount
        extractionConfidence := res.metadata.extractionConfidence
        processedPages := res.metadata.processedPages
        extractionDateSet := true }
  | .setFailed message =>
    { r with processingStatus := "failed", errorMessage := some message }

/-- The persisted record after a `processDocument` run. -/
def finalRecord (t0 : TrackerState) (fileType : String) (o : Oracle) :
    DocumentRecord :=
  (dbWrites (processDocument t0 fileType o).2).foldl applyWrite initialRecord

/-- The body of a progress response
(documentController.js lines 325-340). -/
structure ProgressResponse where
  status : String
  progress : Nat
  step : String
  elapsed : Nat
  deriving Repr, DecidableEq

/-- documentController.js `getDocumentProgress` (lines 308-341) for a
document id: the active tracker if present (with its measured elapsed
time), otherwise the persisted record's status with the fixed fallback
fields, otherwise a 404 (`none`). -/
def getDocumentProgress (tracker : Option TrackerState)
    (doc : Option DocumentRecord) (elapsed : Nat) : Option ProgressResponse :=
  match tracker with
  | some t =>
    some { status := t.status, progress := t.progress, step := t.currentStep,
           elapsed := elapsed }
  | none =>
    match doc with
    | none => none
    | some d =>
      some { status := d.processingStatus
             progress := if d.processingStatus = "completed" then 100 else 0
             step := d.processingStatus
             elapsed := 0 }

/-- A sample successful extraction, used to instantiate oracles. -/
def sampleResult : ExtractionResult := extractTXTText "hello world"

/-- An oracle on which every extractor succeeds. -/
def allOkOracle : Oracle :=
  ⟨.ok sampleResult, .ok sampleResult, .ok sampleResult, .ok sampleResult,
    .ok sampleResult⟩

/-- An oracle on which every extractor throws `engine failure`. -/
def allErrOracle : Oracle :=
  ⟨.error "engine failure", .error "engine failure", .error "engine failure",
    .error "engine failure", .error "engine failure"⟩

/-!  ## Theorems about the table heuristic (docxParser.js)  -/

/-- The structural facts that hold of every table the heuristic emits. -/
def GoodTable (t : Table) : Prop :=
  t.pageNumber = 1 ∧ t.«structure».rows = t.data.length ∧
    t.data.length > 1 ∧ t.«structure».columns = (t.data.headD []).length ∧
    ∀ row ∈ t.data, row.length > 1

/-- Invariant of the table-detection loop state: emitted tables are good,
the running index counts them, indices are assigned densely in discovery
order, and accumulated rows each have more than one cell. -/
def TableInv (st : List (List String) × Nat × List Table) : Prop :=
  (∀ t ∈ st.2.2, GoodTable t) ∧
    st.2.1 = st.2.2.length ∧
    st.2.2.map Table.tableIndex = List.range st.2.2.length ∧
    ∀ row ∈ st.1, row.length > 1

theorem tableInv_step (st : List (List String) × Nat × List Table)
    (line : String) (h : TableInv st) : TableInv (tableStep st line) := by
  obtain ⟨h1, h2, h3, h4⟩ := h
  unfold tableStep
  dsimp only
  split
  · split
    · refine ⟨h1, h2, h3, ?_⟩
      intro row hr
      rcases List.mem_append.1 hr with hr | hr
      · exact h4 row hr
      · rcases List.mem_singleton.1 hr with rfl
        assumption
    · exact ⟨h1, h2, h3, h4⟩
  · split
    · split
      · refine ⟨?_, ?_, ?_, by simp⟩
        · intro t ht
          rcases List.mem_append.1 ht with ht | ht
          · exact h1 t ht
          · rcases List.mem_singleton.1 ht with rfl
            exact ⟨rfl, rfl, by assumption, rfl, h4⟩
        · simp [h2]
        · simp [mkHeuristicTable, h3, h2, List.range_succ]
      · exact ⟨h1, h2, h3, by simp⟩
    · exact ⟨h1, h2, h3, h4⟩

theorem tableInv_foldl (lines : List String)
    (st : List (List String) × Nat × List Table) (h : TableInv st) :
    TableInv (lines.foldl tableStep st) := by
  induction lines generalizing st with
  | nil => exact h
  | cons l ls ih => exact ih _ (tableInv_step _ _ h)

theorem detectTables_good (lines : List String) :
    (∀ t ∈ detectTables lines, GoodTable t) ∧
      (detectTables lines).map Table.tableIndex =
        List.range (detectTables lines).length := by
  have h : TableInv (lines.foldl tableStep ([], 0, [])) :=
    tableInv_foldl lines ([], 0, []) ⟨by simp, by simp, by simp, by simp⟩
  obtain ⟨h1, h2, h3, h4⟩ := h
  unfold detectTables
  dsimp only
  split
  · constructor
    · intro t ht
      rcases List.mem_append.1 ht with ht | ht
      · exact h1 t ht
      · rcases List.mem_singleton.1 ht with rfl
        exact ⟨rfl, rfl, by assumption, rfl, h4⟩
    · simp [mkHeuristicTable, h3, h2, List.range_succ]
  · exact ⟨h1, h3⟩

/-- The input of the first synthetic table-heuristic test. -/
def demoLines : List String := ["a\tb\tc", "1\t2\t3", "not a table line"]

/-- The single table that test expects. -/
def demoTable : Table :=
  { pageNumber := 1, tableIndex := 0, data := [["a", "b", "c"], ["1", "2", "3"]],
    «structure» := { rows := 2, columns := 3 } }

/-- Claim C2: the table heuristic classifies, splits and accumulates
lines as specified, emits only multi-row accumulations with page number
1, dense 0-based indices and `structure.columns` the first row's cell
count, and on the two synthetic inputs produces exactly the expected
single table and zero tables respectively. -/
theorem tableHeuristic_correct :
    (∀ lines : List String, ∀ t ∈ detectTables lines,
        t.pageNumber = 1 ∧ t.«structure».rows = t.data.length ∧
        t.data.length > 1 ∧ t.«structure».columns = (t.data.headD []).length ∧
        ∀ row ∈ t.data, row.length > 1) ∧
    (∀ lines : List String,
        (detectTables lines).map Table.tableIndex =
          List.range (detectTables lines).length) ∧
    detectTables demoLines = [demoTable] ∧
    detectTables ["x\ty\tz", "prose"] = [] :=
  ⟨fun lines => (detectTables_good lines).1,
    fun lines => (detectTables_good lines).2,
    by decide, by decide⟩

/-- Witness for C2: the emitted demo table is a concrete member on which
the universally quantified part evaluates. -/
theorem tableHeuristic_correct_witness :
    demoTable ∈ detectTables demoLines ∧
    demoTable.pageNumber = 1 ∧ demoTable.«structure».rows = demoTable.data.length ∧
    demoTable.data.length > 1 ∧
    demoTable.«structure».columns = (demoTable.data.headD []).length ∧
    ∀ row ∈ demoTable.data, row.length > 1 :=
  ⟨by decide, tableHeuristic_correct.1 demoLines demoTable (by decide)⟩

/-!  ## Unsupported file types (claim C1)  -/

/-- Counterexample to C1 as stated: driving `processDocument` with the
unsupported tag `bmp` first writes `processingStatus = processing` to the
Document Record and only then records the `Unsupported file type`
failure — the record IS mutated to `processing` before the failure. -/
theorem processDocument_bmp_sets_processing_first :
    dbWrites (processDocument uploadedTracker "bmp" allErrOracle).2 =
      [DbWrite.setProcessing, DbWrite.setFailed "Unsupported file type"] := by
  decide

/-- Claim C1 (amended): an unsupported tag is rejected by the upload
validation before any record exists, and if `processDocument` is
nonetheless driven with such a tag it invokes no extractor and terminally
fails with the `Unsupported file type` error — but only after first
marking the record `processing`. -/
theorem unsupported_type_rejected (fileExt : String) (o : Oracle)
    (h : fileExt ∉ allowedTypes) :
    uploadAccepts fileExt = false ∧
    invokes (processDocument uploadedTracker fileExt o).2 = [] ∧
    dbWrites (processDocument uploadedTracker fileExt o).2 =
      [DbWrite.setProcessing, DbWrite.setFailed "Unsupported file type"] ∧
    (processDocument uploadedTracker fileExt o).1.status = "failed" ∧
    (finalRecord uploadedTracker fileExt o).processingStatus = "failed" := by
  have h1 : ¬ fileExt = "pdf" := by rintro rfl; exact h (by decide)
  have h2 : ¬ fileExt = "docx" := by rintro rfl; exact h (by decide)
  have h3 : ¬ fileExt = "xlsx" := by rintro rfl; exact h (by decide)
  have h4 : ¬ fileExt = "xls" := by rintro rfl; exact h (by decide)
  have h5 : ¬ fileExt = "txt" := by rintro rfl; exact h (by decide)
  have h6 : ¬ fileExt = "jpg" := by rintro rfl; exact h (by decide)
  have h7 : ¬ fileExt = "jpeg" := by rintro rfl; exact h (by decide)
  have h8 : ¬ fileExt = "png" := by rintro rfl; exact h (by decide)
  have hdt : dispatchTarget fileExt = none := by
    simp [dispatchTarget, h1, h2, h3, h4, h5, h6, h7, h8]
  have hacc : uploadAccepts fileExt = false := by
    simp [uploadAccepts, allowedTypes, h1, h2, h3, h4, h5, h6, h7, h8]
  refine ⟨hacc, ?_, ?_, ?_, ?_⟩ <;>
    simp [processDocument, hdt, finalRecord, updateProgress, setStatus,
      failTracker, dbWrites, invokes, applyWrite, initialRecord]

/-- Witness for the amended C1 at the concrete extension `bmp`. -/
theorem unsupported_type_rejected_witness :
    ("bmp" ∉ allowedTypes) ∧
    (uploadAccepts "bmp" = false ∧
      invokes (processDocument uploadedTracker "bmp" allErrOracle).2 = [] ∧
      dbWrites (processDocument uploadedTracker "bmp" allErrOracle).2 =
        [DbWrite.setProcessing, DbWrite.setFailed "Unsupported file type"] ∧
      (processDocument uploadedTracker "bmp" allErrOracle).1.status = "failed" ∧
      (finalRecord uploadedTracker "bmp" allErrOracle).processingStatus
        = "failed") :=
  ⟨by decide, unsupported_type_rejected "bmp" allErrOracle (by decide)⟩

/-!  ## Tracker creation status (claim C3)  -/

/-- Counterexample to C3 as stated: the tracker returned by the registry's
create operation has status `pending`, not `processing`, and that
`pending` tracker is what the registry holds right after creation. -/
theorem tracker_created_pending :
    (createProgressTracker emptyRegistry "job1").2.status = "pending" ∧
    (createProgressTracker emptyRegistry "job1").2.status ≠ "processing" ∧
    getProgressTracker (createProgressTracker emptyRegistry "job1").1 "job1" =
      some initTracker ∧
    initTracker.status = "pending" := by
  refine ⟨rfl, by decide, ?_, rfl⟩
  simp [getProgressTracker, createProgressTracker]

/-- Claim C3 (amended): trackers are constructed in `pending`; the upload
path sets them to `processing` immediately after creation, in the same
synchronous step, so the tracker a job's orchestration starts from — and
the one the registry exposes once submission completes — is in
`processing`. -/
theorem tracker_processing_after_upload (reg : Registry) (id : String) :
    (createProgressTracker reg id).2.status = "pending" ∧
    (uploadRegister reg id).2.1.status = "processing" ∧
    getProgressTracker (uploadRegister reg id).1 id =
      some (uploadRegister reg id).2.1 ∧
    (uploadRegister reg id).2.1.progress = 0 := by
  refine ⟨rfl, rfl, ?_, rfl⟩
  simp [getProgressTracker, uploadRegister, createProgressTracker, setStatus]

/-!  ## Terminal persistence invariant (claim C4)  -/

/-- Claim C4: every run issues exactly one terminal persistence write;
a record persisted `completed` has no error message, a set extraction
date, and carries exactly the fields of the successful extraction result;
a record persisted `failed` has an error message. -/
theorem record_terminal_invariant (t0 : TrackerState) (fileType : String)
    (o : Oracle) :
    ((dbWrites (processDocument t0 fileType o).2).filter isTerminalWrite).length
        = 1 ∧
    ((finalRecord t0 fileType o).processingStatus = "completed" →
      (finalRecord t0 fileType o).errorMessage = none ∧
      (finalRecord t0 fileType o).extractionDateSet = true ∧
      ∃ res, (dbWrites (processDocument t0 fileType o).2).filter isTerminalWrite =
          [DbWrite.setCompleted res] ∧
        (finalRecord t0 fileType o).extractedText = res.text ∧
        (finalRecord t0 fileType o).extractedTables = res.tables) ∧
    ((finalRecord t0 fileType o).processingStatus = "failed" →
      (finalRecord t0 fileType o).errorMessage ≠ none) := by
  cases hdt : dispatchTarget fileType with
  | none =>
    simp [processDocument, hdt, finalRecord, dbWrites, updateProgress, setStatus,
      failTracker, applyWrite, initialRecord, isTerminalWrite]
  | some target =>
    cases himg : isImageType fileType <;>
      cases hres : oracleResult o target with
    | error msg =>
      simp [processDocument, hdt, himg, hres, finalRecord, dbWrites,
        updateProgress, setStatus, failTracker, completeTracker, applyWrite,
        initialRecord, isTerminalWrite]
    | ok res =>
      simp [processDocument, hdt, himg, hres, finalRecord, dbWrites,
        updateProgress, setStatus, failTracker, completeTracker, applyWrite,
        initialRecord, isTerminalWrite]

/-- Witness for C4 on a concrete successful run. -/
theorem record_terminal_invariant_witness :
    ((dbWrites (processDocument uploadedTracker "txt" allOkOracle).2).filter
        isTerminalWrite).length = 1 :=
  (record_terminal_invariant uploadedTracker "txt" allOkOracle).1

/-!  ## Extractor error propagation (claim C5)  -/

/-- Claim C5: when the dispatched extractor throws, `processDocument`
catches the error (its model is total), the tracker ends `failed` with
step `Error: <message>`, a failed status event and an error event carrying
the message are emitted, and the only terminal write persists
`processingStatus = failed` with the message recorded verbatim. -/
theorem extractor_error_propagation (t0 : TrackerState)
    (fileType target msg : String) (o : Oracle)
    (hdt : dispatchTarget fileType = some target)
    (hres : oracleResult o target = .error msg) :
    (processDocument t0 fileType o).1.status = "failed" ∧
    (processDocument t0 fileType o).1.currentStep = "Error: " ++ msg ∧
    TrackerEvent.status "failed" ("Error: " ++ msg) ∈
      events (processDocument t0 fileType o).2 ∧
    TrackerEvent.error msg ∈ events (processDocument t0 fileType o).2 ∧
    (dbWrites (processDocument t0 fileType o).2).filter isTerminalWrite =
      [DbWrite.setFailed msg] ∧
    (finalRecord t0 fileType o).errorMessage = some msg ∧
    (finalRecord t0 fileType o).processingStatus = "failed" := by
  cases himg : isImageType fileType <;>
    simp [processDocument, hdt, himg, hres, events, dbWrites, finalRecord,
      updateProgress, setStatus, failTracker, applyWrite, initialRecord,
      isTerminalWrite]

/-- Witness for C5: a txt job whose extractor throws `engine failure`. -/
theorem extractor_error_propagation_witness :
    dispatchTarget "txt" = some "txt" ∧
    oracleResult allErrOracle "txt" = .error "engine failure" ∧
    ((processDocument uploadedTracker "txt" allErrOracle).1.status = "failed" ∧
      (processDocument uploadedTracker "txt" allErrOracle).1.currentStep =
        "Error: " ++ "engine failure" ∧
      TrackerEvent.status "failed" ("Error: " ++ "engine failure") ∈
        events (processDocument uploadedTracker "txt" allErrOracle).2 ∧
      TrackerEvent.error "engine failure" ∈
        events (processDocument uploadedTracker "txt" allErrOracle).2 ∧
      (dbWrites (processDocument uploadedTracker "txt" allErrOracle).2).filter
          isTerminalWrite = [DbWrite.setFailed "engine failure"] ∧
      (finalRecord uploadedTracker "txt" allErrOracle).errorMessage =
        some "engine failure" ∧
      (finalRecord uploadedTracker "txt" allErrOracle).processingStatus =
        "failed") :=
  ⟨rfl, rfl, extractor_error_propagation uploadedTracker "txt" "txt"
    "engine failure" allErrOracle rfl rfl⟩

/-!  ## Page-count estimation (claim C6)  -/

theorem jsCeilDiv_eq_ceil (a : Nat) : (jsCeilDiv a 500 : ℤ) = ⌈(a : ℚ) / 500⌉ := by
  have h1 : a ≤ ((a + 499) / 500) * 500 := by omega
  have h2 : ((a + 499) / 500) * 500 < a + 500 := by omega
  have h1q : (a : ℚ) ≤ (((a + 499) / 500 : ℕ) : ℚ) * 500 := by exact_mod_cast h1
  have h2q : (((a + 499) / 500 : ℕ) : ℚ) * 500 < (a : ℚ) + 500 := by
    exact_mod_cast h2
  have hcast : ((jsCeilDiv a 500 : ℤ) : ℚ) = (((a + 499) / 500 : ℕ) : ℚ) := by
    unfold jsCeilDiv
    rw [Int.cast_natCast]
    congr 1
  rw [eq_comm, Int.ceil_eq_iff, hcast]
  constructor
  · rw [lt_div_iff₀ (by norm_num : (0:ℚ) < 500)]
    linarith
  · rw [div_le_iff₀ (by norm_num : (0:ℚ) < 500)]
    exact h1q

theorem estimatedPages_eq_ceil (text : String) :
    ((estimatedPages text : ℕ) : ℤ) = max 1 ⌈(wordCount text : ℚ) / 500⌉ := by
  unfold estimatedPages
  rw [Nat.cast_max, jsCeilDiv_eq_ceil]
  rfl

/-- A text of `n` single-character words separated by single spaces. -/
def wordsChars : Nat → List Char
  | 0 => []
  | 1 => ['w']
  | n + 2 => 'w' :: ' ' :: wordsChars (n + 1)

/-- The concrete thousand-word plain-text input. -/
def text1000 : String := String.mk (wordsChars 1000)

theorem wordsChars_length (n : Nat) : (wordsChars (n + 1)).length = 2 * n + 1 := by
  induction n with
  | zero => rfl
  | succ m ih =>
    show (wordsChars (m + 2)).length = 2 * (m + 1) + 1
    rw [wordsChars]
    simp only [List.length_cons, ih]
    omega

theorem wordsChars_dropWhile (n : Nat) :
    (wordsChars (n + 1)).dropWhile isWS = wordsChars (n + 1) := by
  cases n with
  | zero => decide
  | succ m =>
    show (('w' :: ' ' :: wordsChars (m + 1)).dropWhile isWS) = _
    rw [List.dropWhile_cons, if_neg (by decide)]
    rfl

theorem splitWsPlus_words (n : Nat) :
    splitWsPlusFuel (wordsChars (n + 1)).length (wordsChars (n + 1)) [] =
      List.replicate (n + 1) ['w'] := by
  induction n with
  | zero => decide
  | succ m ih =>
    rw [wordsChars_length]
    show splitWsPlusFuel (2 * (m + 1) + 1) ('w' :: ' ' :: wordsChars (m + 1)) [] = _
    rw [show 2 * (m + 1) + 1 = (2 * m + 1) + 1 + 1 by omega]
    rw [splitWsPlusFuel]
    rw [if_neg (by decide)]
    rw [splitWsPlusFuel]
    rw [if_pos (by decide)]
    rw [wordsChars_dropWhile]
    rw [← wordsChars_length m]
    rw [ih]
    rfl

theorem wordCount_text1000 : wordCount text1000 = 1000 := by
  unfold wordCount text1000
  show ((splitWsPlus (wordsChars 1000) []).filter (fun w => w.length > 0)).length
      = 1000
  unfold splitWsPlus
  rw [show (1000 : Nat) = 999 + 1 from rfl, splitWsPlus_words 999]
  rw [List.filter_replicate, if_pos (by decide), List.length_replicate]

/-- Claim C6: the plain-text, word-processor and OCR extractors estimate
`pageCount = max(1, ceil(wordCount / 500))` over whitespace-delimited
non-empty tokens and report `processedPages = 1..pageCount`; the concrete
thousand-word input yields page count 2 and pages `[1, 2]`. -/
theorem pageCount_estimation :
    (∀ text : String,
      ((extractTXTText text).metadata.pageCount : ℤ) =
          max 1 ⌈(wordCount text : ℚ) / 500⌉ ∧
      (extractTXTText text).metadata.processedPages =
        (List.range (extractTXTText text).metadata.pageCount).map (· + 1)) ∧
    (∀ (text : String) (messages : List String),
      ((extractDOCXText text messages).metadata.pageCount : ℤ) =
          max 1 ⌈(wordCount text : ℚ) / 500⌉ ∧
      (extractDOCXText text messages).metadata.processedPages =
        (List.range (extractDOCXText text messages).metadata.pageCount).map
          (· + 1)) ∧
    (∀ (text : String) (confidence : ℚ),
      ((extractOCRText text confidence).metadata.pageCount : ℤ) =
          max 1 ⌈(wordCount text : ℚ) / 500⌉ ∧
      (extractOCRText text confidence).metadata.processedPages =
        (List.range (extractOCRText text confidence).metadata.pageCount).map
          (· + 1)) ∧
    (extractTXTText text1000).metadata.pageCount = 2 ∧
    (extractTXTText text1000).metadata.processedPages = [1, 2] := by
  have hpages : (extractTXTText text1000).metadata.pageCount = 2 := by
    show estimatedPages text1000 = 2
    unfold estimatedPages
    rw [wordCount_text1000]
    decide
  have hproj : ∀ text : String,
      (extractTXTText text).metadata.processedPages =
        processedPagesList ((extractTXTText text).metadata.pageCount) :=
    fun _ => rfl
  refine ⟨fun text => ⟨estimatedPages_eq_ceil text, rfl⟩,
    fun text messages => ⟨estimatedPages_eq_ceil text, rfl⟩,
    fun text confidence => ⟨estimatedPages_eq_ceil text, rfl⟩,
    hpages, ?_⟩
  rw [hproj text1000, hpages]
  decide

/-!  ## Spreadsheet extraction (claim C7)  -/

theorem excelTables_spec (sheets : List (String × List (List String)))
    (idx : Nat) :
    (excelTables idx sheets).map Table.data =
      (sheets.filter (fun s => (cleanSheet s.2).length > 0)).map
        (fun s => cleanSheet s.2) ∧
    ∀ t ∈ excelTables idx sheets,
      t.«structure».rows = t.data.length ∧
      t.«structure».columns = (t.data.headD []).length ∧
      t.pageNumber = t.tableIndex + 1 ∧
      ∀ row ∈ t.data, row.any (fun c => c ≠ "") = true := by
  induction sheets generalizing idx with
  | nil => exact ⟨rfl, by simp [excelTables]⟩
  | cons s rest ih =>
    obtain ⟨ih1, ih2⟩ := ih (idx + 1)
    unfold excelTables
    dsimp only
    split
    · constructor
      · simp [List.filter_cons, *]
      · intro t ht
        rcases List.mem_cons.1 ht with rfl | ht
        · refine ⟨rfl, rfl, rfl, ?_⟩
          intro row hr
          have := List.mem_filter.1 hr
          simpa using this.2
        · exact ih2 t ht
    · constructor
      · rw [ih1, List.filter_cons]
        simp [*]
      · exact ih2

/-- Claim C7: spreadsheet extraction produces one table per sheet with a
surviving row, keeping rows in order with all-empty rows dropped,
`structure.rows` the kept-row count and `structure.columns` the first
kept row's length, with `pageCount` the total number of sheets; the
two-sheet workbook whose second sheet is entirely empty yields page count
2 and a single table from Sheet1. -/
theorem excel_extraction :
    (∀ sheets : List (String × List (List String)),
      (extractExcelData sheets).metadata.pageCount = sheets.length ∧
      (extractExcelData sheets).tables.map Table.data =
        (sheets.filter (fun s => (cleanSheet s.2).length > 0)).map
          (fun s => cleanSheet s.2) ∧
      ∀ t ∈ (extractExcelData sheets).tables,
        t.«structure».rows = t.data.length ∧
        t.«structure».columns = (t.data.headD []).length ∧
        ∀ row ∈ t.data, row.any (fun c => c ≠ "") = true) ∧
    (extractExcelData
        [("Sheet1", [["a", "b"], ["1", "2"]]), ("Sheet2", [["", ""], []])]
      = { text := "Sheet: Sheet1\na\tb\n1\t2\n\nSheet: Sheet2"
          metadata := { pageCount := 2, extractionConfidence := 98,
                        processedPages := [1, 2] }
          tables := [{ pageNumber := 1, tableIndex := 0,
                       data := [["a", "b"], ["1", "2"]],
                       «structure» := { rows := 2, columns := 2 } }] }) := by
  constructor
  · intro sheets
    obtain ⟨h1, h2⟩ := excelTables_spec sheets 0
    exact ⟨rfl, h1, fun t ht =>
      ⟨(h2 t ht).1, (h2 t ht).2.1, (h2 t ht).2.2.2⟩⟩
  · decide

/-- Witness for C7: the quantified part evaluated on the demo workbook and
its single emitted table. -/
theorem excel_extraction_witness :
    (extractExcelData [("S1", [["x"], [""]])]).metadata.pageCount = 1 ∧
    (extractExcelData [("S1", [["x"], [""]])]).tables.map Table.data =
      ([("S1", [["x"], [""]])].filter
          (fun s => (cleanSheet s.2).length > 0)).map (fun s => cleanSheet s.2) ∧
    ∀ t ∈ (extractExcelData [("S1", [["x"], [""]])]).tables,
      t.«structure».rows = t.data.length ∧
      t.«structure».columns = (t.data.headD []).length ∧
      ∀ row ∈ t.data, row.any (fun c => c ≠ "") = true :=
  excel_extraction.1 [("S1", [["x"], [""]])]

/-!  ## Progress checkpoints (claim C8)  -/

/-- Claim C8: a successful run's progress events are exactly
10, 30, (50 for images), 80, 100, so with the tracker's initial 0 the
observed sequence is non-decreasing, and `updateProgress` always clamps
its value to [0, 100] (leaving in-range values unchanged). -/
theorem progress_checkpoints (fileType target : String) (o : Oracle)
    (res : ExtractionResult)
    (hdt : dispatchTarget fileType = some target)
    (hres : oracleResult o target = .ok res) :
    uploadedTracker.progress = 0 ∧
    progressValues (processDocument uploadedTracker fileType o).2 =
      (if isImageType fileType then [10, 30, 50, 80, 100]
        else [10, 30, 80, 100]) ∧
    List.Chain' (· ≤ ·)
      (uploadedTracker.progress ::
        progressValues (processDocument uploadedTracker fileType o).2) ∧
    (∀ (t : TrackerState) (v : Int) (s : String),
      (updateProgress t v s).1.progress = jsClamp v ∧
      jsClamp v ≤ 100 ∧ (0 ≤ v → v ≤ 100 → (jsClamp v : Int) = v)) := by
  refine ⟨rfl, ?_, ?_, ?_⟩
  · cases himg : isImageType fileType <;>
      simp [processDocument, hdt, himg, hres, progressValues, updateProgress,
        setStatus, completeTracker, jsClamp]
  · cases himg : isImageType fileType <;>
      simp [processDocument, hdt, himg, hres, progressValues, updateProgress,
        setStatus, completeTracker, jsClamp, uploadedTracker, initTracker]
  · intro t v s
    refine ⟨rfl, ?_, ?_⟩
    · simp only [jsClamp]
      omega
    · intro hv1 hv2
      simp only [jsClamp]
      omega

/-- Witness for C8: a successful image job shows the five checkpoints. -/
theorem progress_checkpoints_witness :
    dispatchTarget "jpg" = some "ocr" ∧
    oracleResult allOkOracle "ocr" = .ok sampleResult ∧
    progressValues (processDocument uploadedTracker "jpg" allOkOracle).2 =
      (if isImageType "jpg" then [10, 30, 50, 80, 100] else [10, 30, 80, 100]) :=
  ⟨rfl, rfl,
    (progress_checkpoints "jpg" "ocr" allOkOracle sampleResult rfl rfl).2.1⟩

/-!  ## Extraction confidence (claim C9)  -/

/-- Claim C9: confidence is 100 for plain text, 98 for spreadsheets, 95
for PDFs, 95/85 for word-processor documents according to converter
warnings, and the OCR engine's confidence rounded (half up) for images —
a value within 1/2 of the reported score. -/
theorem confidence_values :
    (∀ text : String,
      (extractTXTText text).metadata.extractionConfidence = 100) ∧
    (∀ sheets : List (String × List (List String)),
      (extractExcelData sheets).metadata.extractionConfidence = 98) ∧
    (∀ (numPages : Nat) (fullText : String) (pageTables : Nat → List PDFTable),
      (extractPDFText numPages fullText pageTables).metadata.extractionConfidence
        = 95) ∧
    (∀ (text : String) (messages : List String),
      (extractDOCXText text messages).metadata.extractionConfidence =
        if messages = [] then 95 else 85) ∧
    (∀ (text : String) (confidence : ℚ),
      (extractOCRText text confidence).metadata.extractionConfidence =
        jsRound confidence ∧
      |confidence - (jsRound confidence : ℚ)| ≤ 1 / 2) := by
  refine ⟨fun _ => rfl, fun _ => rfl, fun _ _ _ => rfl, ?_, ?_⟩
  · intro text messages
    cases messages <;> simp [extractDOCXText]
  · intro text confidence
    refine ⟨rfl, ?_⟩
    rw [abs_le]
    unfold jsRound
    constructor
    · have h := Int.floor_le (confidence + 1 / 2)
      push_cast at h ⊢
      linarith
    · have h := Int.lt_floor_add_one (confidence + 1 / 2)
      push_cast at h ⊢
      linarith

/-!  ## Progress fallback (claim C10)  -/

/-- Claim C10: with no active tracker and a known record, the progress
query reports the persisted status, progress 100 exactly when the status
is `completed` and 0 otherwise (failed included), the status string as
the step, and elapsed 0. -/
theorem progress_fallback (d : DocumentRecord) (e : Nat) :
    getDocumentProgress none (some d) e =
      some { status := d.processingStatus
             progress := if d.processingStatus = "completed" then 100 else 0
             step := d.processingStatus
             elapsed := 0 } ∧
    (d.processingStatus = "failed" →
      getDocumentProgress none (some d) e =
        some { status := "failed", progress := 0, step := "failed",
               elapsed := 0 }) := by
  constructor
  · rfl
  · intro h
    simp [getDocumentProgress, h]

/-- A failed record, as persisted after a job whose extractor threw. -/
def failedRecordDemo : DocumentRecord :=
  { initialRecord with
      processingStatus := "failed"
      errorMessage := some "engine failure" }

/-- Witness for C10: the fallback response on a concrete failed record
reports progress 0. -/
theorem progress_fallback_witness :
    failedRecordDemo.processingStatus = "failed" ∧
    getDocumentProgress none (some failedRecordDemo) 7 =
      some { status := "failed", progress := 0, step := "failed",
             elapsed := 0 } :=
  ⟨rfl, (progress_fallback failedRecordDemo 7).2 rfl⟩

end DocParse
